import Mathlib

/-!
Shallow embedding of the devices-api repository: the Device entity and its
validation rules (internal/domain, `config.go` part), the error taxonomy
(`errors.go` part), the Postgres repository semantics over an abstract row
store (`postgres_device.go` part), and the DeviceService orchestration layer
(`device_service.go` part).  Effects (uuid.New, time.Now, the injected
repository) are passed explicitly; repository interactions are recorded as a
trace of calls so that "no persistence write happens" is statable.
-/

namespace DevicesApi

/-! ## UUIDs

Go's `uuid.UUID` is a 16-byte array; `uuid.Nil` is all zeros.  `uuid.New`
fills the bytes with random data, then forces byte 6 to `(b & 0x0f) | 0x40`
(version 4) and byte 8 to `(b & 0x3f) | 0x80` (RFC 4122 variant), so the
result is never the nil UUID.  The random bytes are an explicit input here. -/

abbrev UUID := Fin 16 → Fin 256

def uuidNil : UUID := fun _ => 0

def uuidNew (rnd : Fin 16 → Fin 256) : UUID := fun i =>
  if i.val = 6 then ⟨(rnd i).val % 16 + 64, by omega⟩
  else if i.val = 8 then ⟨(rnd i).val % 64 + 128, by omega⟩
  else rnd i

/-! ## Error taxonomy

Go errors form wrap chains (`fmt.Errorf("...: %w", err)`); `errors.Is` and
`errors.As` search the chain.  `external` stands for an error minted outside
the domain package (the pgx driver, a failed context), the unclassified
category. -/

inductive GoError where
  | validationError (field message : String)
  | businessRuleError (message : String)
  | deviceNotFound
  | deviceAlreadyExists
  | invalidInput
  | wrap (context : String) (cause : GoError)
  | external (message : String)
deriving DecidableEq, Repr

def isValidationError : GoError → Bool
  | .validationError _ _ => true
  | .wrap _ e => isValidationError e
  | _ => false

def isBusinessRuleError : GoError → Bool
  | .businessRuleError _ => true
  | .wrap _ e => isBusinessRuleError e
  | _ => false

def isNotFoundError : GoError → Bool
  | .deviceNotFound => true
  | .wrap _ e => isNotFoundError e
  | _ => false

def isAlreadyExistsError : GoError → Bool
  | .deviceAlreadyExists => true
  | .wrap _ e => isAlreadyExistsError e
  | _ => false

/-! ## Strings as Go sees them

`strings.TrimSpace` removes leading and trailing runes for which
`unicode.IsSpace` holds; `len` counts UTF-8 bytes. -/

def goIsSpace (c : Char) : Bool :=
  let v := c.toNat
  v == 9 || v == 10 || v == 11 || v == 12 || v == 13 || v == 32 ||
  v == 0x85 || v == 0xA0 || v == 0x1680 ||
  (decide (0x2000 ≤ v) && decide (v ≤ 0x200A)) ||
  v == 0x2028 || v == 0x2029 || v == 0x202F || v == 0x205F || v == 0x3000

def trimSpace (s : String) : String :=
  ⟨((s.data.dropWhile goIsSpace).reverse.dropWhile goIsSpace).reverse⟩

def charGoLen (c : Char) : Nat :=
  if c.toNat < 0x80 then 1
  else if c.toNat < 0x800 then 2
  else if c.toNat < 0x10000 then 3
  else 4

def goLen (s : String) : Nat := (s.data.map charGoLen).sum

/-! ## The Device entity (internal/domain/device.go) -/

abbrev DeviceState := String

def DeviceStateActive : DeviceState := "active"

def DeviceStateInUse : DeviceState := "in-use"

def DeviceStateInactive : DeviceState := "inactive"

/-- The Go struct has fields ID, Name, Brand, CreatedAt, State; `time.Time`
is modelled as a Nat (zero value = the zero time, `IsZero`). -/
structure Device where
  id : UUID
  name : String
  brand : String
  createdAt : Nat
  state : DeviceState
deriving DecidableEq

def Device.ValidateName (d : Device) : Option GoError :=
  let name := trimSpace d.name
  if name = "" then some (.validationError "name" "cannot be empty")
  else if goLen name < 3 then some (.validationError "name" "must be at least 3 characters")
  else if goLen name > 100 then some (.validationError "name" "must not exceed 100 characters")
  else none

def Device.ValidateBrand (d : Device) : Option GoError :=
  let brand := trimSpace d.brand
  if brand = "" then some (.validationError "brand" "cannot be empty")
  else if goLen brand < 2 then some (.validationError "brand" "must be at least 2 characters")
  else if goLen brand > 50 then some (.validationError "brand" "must not exceed 50 characters")
  else none

def Device.ValidateState (d : Device) : Option GoError :=
  if d.state = DeviceStateActive ∨ d.state = DeviceStateInUse ∨ d.state = DeviceStateInactive
  then none
  else some (.validationError "state"
    ("invalid state: " ++ d.state ++ " (must be: active, in-use, or inactive)"))

def Device.Validate (d : Device) : Option GoError :=
  if d.id = uuidNil then some (.validationError "id" "cannot be empty")
  else match d.ValidateName with
  | some e => some e
  | none => match d.ValidateBrand with
    | some e => some e
    | none =>
      if d.createdAt = 0 then some (.validationError "created_at" "cannot be empty")
      else d.ValidateState

def Device.CanUpdate (d : Device) : Option GoError :=
  if d.state = DeviceStateInUse
  then some (.businessRuleError "cannot update device in 'in-use' state")
  else none

def Device.CanDelete (d : Device) : Option GoError :=
  if d.state = DeviceStateInUse
  then some (.businessRuleError "cannot delete device in 'in-use' state")
  else none

def NewDevice (rnd : Fin 16 → Fin 256) (now : Nat) (name brand : String) :
    Except GoError Device :=
  let device : Device :=
    { id := uuidNew rnd, name := name, brand := brand, createdAt := now
      state := DeviceStateActive }
  match device.Validate with
  | some e => .error e
  | none => .ok device

/-- Go's `Update` mutates the receiver; the pair returned here is (the
receiver after the call, the returned error): the early returns leave the
receiver untouched, the assignments at the end replace Name, Brand, State. -/
def Device.Update (d : Device) (name brand : String) (state : DeviceState) :
    Device × Option GoError :=
  match d.CanUpdate with
  | some e => (d, some e)
  | none =>
    let temp : Device :=
      { id := d.id, name := name, brand := brand, createdAt := d.createdAt, state := state }
    match temp.Validate with
    | some e => (d, some e)
    | none => ({ d with name := name, brand := brand, state := state }, none)

/-- Go's `SetState` assigns `d.State = state` first and only then runs
`ValidateState` on the mutated receiver. -/
def Device.SetState (d : Device) (state : DeviceState) : Device × Option GoError :=
  let d' : Device := { d with state := state }
  (d', d'.ValidateState)

/-! ## The Postgres repository (internal/repository/postgres_device.go)

The devices table has columns (id, name, brand, state, created_at) with a
uniqueness constraint on id.  A `Store` is the table's rows.  INSERT under a
colliding id fails with a driver-level unique-violation error, which the Go
code wraps with `fmt.Errorf("failed to create device: %w", err)` and nothing
else; UPDATE sets only name, brand and state `WHERE id = $1`, and a zero
`RowsAffected` becomes `domain.ErrDeviceNotFound`; likewise DELETE. -/

abbrev Store := List Device

def pgCreate (store : Store) (device : Device) : Store × Option GoError :=
  if store.any (fun row => row.id == device.id) then
    (store,
     some (.wrap "failed to create device"
       (.external "ERROR: duplicate key value violates unique constraint (SQLSTATE 23505)")))
  else (store ++ [device], none)

def pgGetByID (store : Store) (id : UUID) : Except GoError Device :=
  match store.find? (fun row => row.id == id) with
  | some device => .ok device
  | none => .error .deviceNotFound

def pgList (store : Store) (limit offset : Int) : Except GoError (List Device) :=
  .ok (((store.mergeSort (fun a b => b.createdAt ≤ a.createdAt)).drop offset.toNat).take
    limit.toNat)

def pgListByBrand (store : Store) (brand : String) (limit offset : Int) :
    Except GoError (List Device) :=
  .ok ((((store.filter (fun row => row.brand == brand)).mergeSort
    (fun a b => b.createdAt ≤ a.createdAt)).drop offset.toNat).take limit.toNat)

def pgListByState (store : Store) (state : DeviceState) (limit offset : Int) :
    Except GoError (List Device) :=
  .ok ((((store.filter (fun row => row.state == state)).mergeSort
    (fun a b => b.createdAt ≤ a.createdAt)).drop offset.toNat).take limit.toNat)

def pgUpdate (store : Store) (device : Device) : Store × Option GoError :=
  let affected := store.countP (fun row => row.id == device.id)
  let updated := store.map (fun row =>
    if row.id == device.id then
      { row with name := device.name, brand := device.brand, state := device.state }
    else row)
  if affected = 0 then (updated, some .deviceNotFound) else (updated, none)

def pgDelete (store : Store) (id : UUID) : Store × Option GoError :=
  let affected := store.countP (fun row => row.id == id)
  let remaining := store.filter (fun row => !(row.id == id))
  if affected = 0 then (store, some .deviceNotFound) else (remaining, none)

def pgExistsByID (store : Store) (id : UUID) : Except GoError Bool :=
  .ok (store.any (fun row => row.id == id))

/-! ## The repository interface (internal/domain/repository.go)

The service holds a `domain.DeviceRepository`, an interface: each operation
is an abstract function.  `GoList` stands for the interface's `List`. -/

structure DeviceRepository where
  Create : Device → Option GoError
  GetByID : UUID → Except GoError Device
  GoList : Int → Int → Except GoError (List Device)
  ListByBrand : String → Int → Int → Except GoError (List Device)
  ListByState : DeviceState → Int → Int → Except GoError (List Device)
  Update : Device → Option GoError
  Delete : UUID → Option GoError
  ExistsByID : UUID → Except GoError Bool

/-- The Postgres implementation of the interface over a fixed row store
(write operations return just the error; the claims about the written store
use pgCreate, pgUpdate and pgDelete directly). -/
def pgRepo (store : Store) : DeviceRepository where
  Create := fun device => (pgCreate store device).snd
  GetByID := pgGetByID store
  GoList := pgList store
  ListByBrand := pgListByBrand store
  ListByState := pgListByState store
  Update := fun device => (pgUpdate store device).snd
  Delete := fun id => (pgDelete store id).snd
  ExistsByID := pgExistsByID store

/-- One call made against the repository, as a recording stub would log it. -/
inductive RepoCall where
  | create (device : Device)
  | getByID (id : UUID)
  | list (limit offset : Int)
  | listByBrand (brand : String) (limit offset : Int)
  | listByState (state : DeviceState) (limit offset : Int)
  | update (device : Device)
  | delete (id : UUID)
deriving DecidableEq

def RepoCall.isWrite : RepoCall → Bool
  | .create _ => true
  | .update _ => true
  | .delete _ => true
  | _ => false

/-! ## The orchestration service (internal/service/device_service.go)

Each operation returns (its result, the trace of repository calls it made).
`uuid.New` and `time.Now().UTC()` are explicit inputs. -/

def CreateDevice (repo : DeviceRepository) (rnd : Fin 16 → Fin 256) (now : Nat)
    (name brand : String) : Except GoError Device × List RepoCall :=
  match NewDevice rnd now name brand with
  | .error e => (.error (.wrap "failed to create device" e), [])
  | .ok device =>
    match repo.Create device with
    | some e => (.error (.wrap "failed to save device" e), [.create device])
    | none => (.ok device, [.create device])

def GetDevice (repo : DeviceRepository) (id : UUID) :
    Except GoError Device × List RepoCall :=
  (repo.GetByID id, [.getByID id])

def ListDevices (repo : DeviceRepository) (limit offset : Int) :
    Except GoError (List Device) × List RepoCall :=
  let limit := if limit ≤ 0 then 10 else limit
  let offset := if offset < 0 then 0 else offset
  match repo.GoList limit offset with
  | .error e => (.error (.wrap "failed to list devices" e), [.list limit offset])
  | .ok devices => (.ok devices, [.list limit offset])

def ListDevicesByBrand (repo : DeviceRepository) (brand : String) (limit offset : Int) :
    Except GoError (List Device) × List RepoCall :=
  if brand = "" then (.error (.validationError "brand" "cannot be empty"), [])
  else
    let limit := if limit ≤ 0 then 10 else limit
    let offset := if offset < 0 then 0 else offset
    match repo.ListByBrand brand limit offset with
    | .error e => (.error (.wrap "failed to list devices by brand" e),
        [.listByBrand brand limit offset])
    | .ok devices => (.ok devices, [.listByBrand brand limit offset])

def ListDevicesByState (repo : DeviceRepository) (rnd : Fin 16 → Fin 256)
    (state : DeviceState) (limit offset : Int) :
    Except GoError (List Device) × List RepoCall :=
  let tempDevice : Device :=
    { id := uuidNew rnd, name := "temp", brand := "temp", createdAt := 0, state := state }
  match tempDevice.ValidateState with
  | some e => (.error e, [])
  | none =>
    let limit := if limit ≤ 0 then 10 else limit
    let offset := if offset < 0 then 0 else offset
    match repo.ListByState state limit offset with
    | .error e => (.error (.wrap "failed to list devices by state" e),
        [.listByState state limit offset])
    | .ok devices => (.ok devices, [.listByState state limit offset])

/-- Modelled from the spec: the service's UpdateDevice method is not among
the repository's files (only its tests are).  Per the spec's Update(id,
name, brand, state): load the current entity via get_by_id and propagate
NotFound; run the in-use guard and the candidate's validation against the
loaded entity (the domain's Device.Update does exactly guard, validate,
assign); on success persist via update() and return the updated entity.
The wrap context on a persistence failure follows the service tests. -/
def UpdateDevice (repo : DeviceRepository) (id : UUID) (name brand : String)
    (state : DeviceState) : Except GoError Device × List RepoCall :=
  match repo.GetByID id with
  | .error e => (.error e, [.getByID id])
  | .ok device =>
    match device.Update name brand state with
    | (_, some e) => (.error e, [.getByID id])
    | (updated, none) =>
      match repo.Update updated with
      | some e => (.error (.wrap "failed to update device" e), [.getByID id, .update updated])
      | none => (.ok updated, [.getByID id, .update updated])

/-- Modelled from the spec: the service's DeleteDevice method is not among
the repository's files (only its tests are).  Per the spec's Delete(id):
load the current entity via get_by_id and propagate NotFound; invoke
can_delete() and propagate the BusinessRuleViolation when the device is
in-use; only then persist via delete(). -/
def DeleteDevice (repo : DeviceRepository) (id : UUID) :
    Option GoError × List RepoCall :=
  match repo.GetByID id with
  | .error e => (some e, [.getByID id])
  | .ok device =>
    match device.CanDelete with
    | some e => (some e, [.getByID id])
    | none =>
      match repo.Delete id with
      | some e => (some (.wrap "failed to delete device" e), [.getByID id, .delete id])
      | none => (none, [.getByID id, .delete id])

/-! ## Concrete fixtures for the closed instances -/

def rnd0 : Fin 16 → Fin 256 := fun _ => 0

def uuid0 : UUID := uuidNew rnd0

def devInUse : Device :=
  { id := uuid0, name := "iPhone 15", brand := "Apple", createdAt := 1
    state := DeviceStateInUse }

def devActive : Device :=
  { id := uuid0, name := "iPhone 15", brand := "Apple", createdAt := 1
    state := DeviceStateActive }

/-- A recording-stub repository: every read answers with the fixed device,
every write succeeds. -/
def stubRepo (d : Device) : DeviceRepository where
  Create := fun _ => none
  GetByID := fun _ => .ok d
  GoList := fun _ _ => .ok []
  ListByBrand := fun _ _ _ => .ok []
  ListByState := fun _ _ _ => .ok []
  Update := fun _ => none
  Delete := fun _ => none
  ExistsByID := fun _ => .ok true

/-! ## Helper lemmas -/

theorem uuidNew_ne_uuidNil (rnd : Fin 16 → Fin 256) : uuidNew rnd ≠ uuidNil := by
  intro h
  have h6 := congrFun h ⟨6, by omega⟩
  have : (rnd ⟨6, by omega⟩).val % 16 + 64 = 0 := by
    simp only [uuidNew, uuidNil, Fin.ext_iff] at h6
    simp at h6
  omega

theorem validateName_eq_none_iff (d : Device) :
    d.ValidateName = none ↔
      (trimSpace d.name ≠ "" ∧ 3 ≤ goLen (trimSpace d.name) ∧
        goLen (trimSpace d.name) ≤ 100) := by
  simp only [Device.ValidateName]
  split_ifs with h1 h2 h3 <;> simp_all

theorem validateBrand_eq_none_iff (d : Device) :
    d.ValidateBrand = none ↔
      (trimSpace d.brand ≠ "" ∧ 2 ≤ goLen (trimSpace d.brand) ∧
        goLen (trimSpace d.brand) ≤ 50) := by
  simp only [Device.ValidateBrand]
  split_ifs with h1 h2 h3 <;> simp_all

theorem validateState_eq_none_iff (d : Device) :
    d.ValidateState = none ↔
      (d.state = DeviceStateActive ∨ d.state = DeviceStateInUse ∨
        d.state = DeviceStateInactive) := by
  simp only [Device.ValidateState]
  split_ifs with h <;> simp_all

/-! ## The claims -/

/-- C2: `Validate` returns ok exactly when all field constraints hold, and
when several fields are invalid it reports the first violation in the fixed
order id, name, brand, created_at, state. -/
theorem validate_ok_iff_and_first_violation_order (d : Device) :
    (d.Validate = none ↔
      (d.id ≠ uuidNil ∧
        trimSpace d.name ≠ "" ∧ 3 ≤ goLen (trimSpace d.name) ∧
        goLen (trimSpace d.name) ≤ 100 ∧
        trimSpace d.brand ≠ "" ∧ 2 ≤ goLen (trimSpace d.brand) ∧
        goLen (trimSpace d.brand) ≤ 50 ∧
        d.createdAt ≠ 0 ∧
        (d.state = DeviceStateActive ∨ d.state = DeviceStateInUse ∨
          d.state = DeviceStateInactive)))
    ∧ (d.id = uuidNil → d.Validate = some (.validationError "id" "cannot be empty"))
    ∧ (d.id ≠ uuidNil → ∀ e, d.ValidateName = some e → d.Validate = some e)
    ∧ (d.id ≠ uuidNil → d.ValidateName = none →
        ∀ e, d.ValidateBrand = some e → d.Validate = some e)
    ∧ (d.id ≠ uuidNil → d.ValidateName = none → d.ValidateBrand = none →
        d.createdAt = 0 →
        d.Validate = some (.validationError "created_at" "cannot be empty"))
    ∧ (d.id ≠ uuidNil → d.ValidateName = none → d.ValidateBrand = none →
        d.createdAt ≠ 0 → d.Validate = d.ValidateState) := by
  refine ⟨?_, ?_, ?_, ?_, ?_, ?_⟩
  · rw [show (d.id ≠ uuidNil ∧
        trimSpace d.name ≠ "" ∧ 3 ≤ goLen (trimSpace d.name) ∧
        goLen (trimSpace d.name) ≤ 100 ∧
        trimSpace d.brand ≠ "" ∧ 2 ≤ goLen (trimSpace d.brand) ∧
        goLen (trimSpace d.brand) ≤ 50 ∧
        d.createdAt ≠ 0 ∧
        (d.state = DeviceStateActive ∨ d.state = DeviceStateInUse ∨
          d.state = DeviceStateInactive)) =
      (d.id ≠ uuidNil ∧ d.ValidateName = none ∧ d.ValidateBrand = none ∧
        d.createdAt ≠ 0 ∧ d.ValidateState = none) from by
        rw [validateName_eq_none_iff, validateBrand_eq_none_iff, validateState_eq_none_iff]
        apply propext; tauto]
    unfold Device.Validate
    split_ifs with hid hts
    · simp [hid]
    · cases hn : d.ValidateName <;> cases hb : d.ValidateBrand <;> simp_all
    · cases hn : d.ValidateName <;> cases hb : d.ValidateBrand <;> simp_all
  · intro hid; simp [Device.Validate, hid]
  · intro hid e hn
    simp [Device.Validate, hid, hn]
  · intro hid hn e hb
    simp [Device.Validate, hid, hn, hb]
  · intro hid hn hb hts
    simp [Device.Validate, hid, hn, hb, hts]
  · intro hid hn hb hts
    simp [Device.Validate, hid, hn, hb, hts]

/-- C5: validation trims surrounding whitespace only for the emptiness and
length decision (whitespace-only strings are invalid; the inclusive bounds
[3,100] for name and [2,50] for brand are checked on the trimmed value),
while the stored entity keeps the original un-trimmed string. -/
theorem trim_only_for_decision_store_verbatim (d : Device) :
    (d.ValidateName = none ↔
      (trimSpace d.name ≠ "" ∧ 3 ≤ goLen (trimSpace d.name) ∧
        goLen (trimSpace d.name) ≤ 100))
    ∧ (d.ValidateBrand = none ↔
      (trimSpace d.brand ≠ "" ∧ 2 ≤ goLen (trimSpace d.brand) ∧
        goLen (trimSpace d.brand) ≤ 50))
    ∧ (trimSpace d.name = "" →
        d.ValidateName = some (.validationError "name" "cannot be empty"))
    ∧ (trimSpace d.brand = "" →
        d.ValidateBrand = some (.validationError "brand" "cannot be empty"))
    ∧ (∀ rnd now nm br dev, NewDevice rnd now nm br = .ok dev →
        dev.name = nm ∧ dev.brand = br) := by
  refine ⟨validateName_eq_none_iff d, validateBrand_eq_none_iff d, ?_, ?_, ?_⟩
  · intro h; simp [Device.ValidateName, h]
  · intro h; simp [Device.ValidateBrand, h]
  · intro rnd now nm br dev h
    unfold NewDevice at h
    cases hv : Device.Validate
        { id := uuidNew rnd, name := nm, brand := br, createdAt := now
          state := DeviceStateActive } <;> simp_all
    exact ⟨congrArg Device.name h.symm, congrArg Device.brand h.symm⟩

/-- C9: `Device.Update` is atomic in memory: on any error the receiver's
five fields are unchanged; on ok its name, brand and state are the requested
values and its id and created_at are unchanged. -/
theorem device_update_atomic (d : Device) (name brand : String) (state : DeviceState) :
    (∀ e, (d.Update name brand state).snd = some e → (d.Update name brand state).fst = d)
    ∧ ((d.Update name brand state).snd = none →
        (d.Update name brand state).fst.name = name ∧
        (d.Update name brand state).fst.brand = brand ∧
        (d.Update name brand state).fst.state = state ∧
        (d.Update name brand state).fst.id = d.id ∧
        (d.Update name brand state).fst.createdAt = d.createdAt) := by
  unfold Device.Update
  cases hg : d.CanUpdate <;>
    cases hv : Device.Validate
      { id := d.id, name := name, brand := brand, createdAt := d.createdAt,
        state := state } <;> simp_all

/-- C10: `Device.SetState` assigns the requested state before validating it:
the assignment is not gated by `CanUpdate` (it goes through even when the
current state is in-use, where the guard fails), and an invalid requested
state yields a ValidationFailure while the state field has already been
overwritten with the invalid value. -/
theorem setState_assigns_before_validating (d : Device) (state : DeviceState) :
    (d.SetState state).fst.state = state
    ∧ (d.SetState state).fst.id = d.id
    ∧ (d.SetState state).fst.name = d.name
    ∧ (d.SetState state).fst.brand = d.brand
    ∧ (d.SetState state).fst.createdAt = d.createdAt
    ∧ (d.state = DeviceStateInUse → d.CanUpdate ≠ none ∧ (d.SetState state).fst.state = state)
    ∧ (¬(state = DeviceStateActive ∨ state = DeviceStateInUse ∨ state = DeviceStateInactive) →
        (d.SetState state).snd = some (.validationError "state"
          ("invalid state: " ++ state ++ " (must be: active, in-use, or inactive)")))
    ∧ ((state = DeviceStateActive ∨ state = DeviceStateInUse ∨ state = DeviceStateInactive) →
        (d.SetState state).snd = none) := by
  refine ⟨rfl, rfl, rfl, rfl, rfl, ?_, ?_, ?_⟩
  · intro h; exact ⟨by simp [Device.CanUpdate, h], rfl⟩
  · intro h; simp [Device.SetState, Device.ValidateState, h]
  · intro h; simp [Device.SetState, Device.ValidateState, h]

/-- C1: when the persisted state of the loaded device is in-use, UpdateDevice
and DeleteDevice fail with a BusinessRuleViolation regardless of the requested
new field values and make no persistence write call, and the CanUpdate and
CanDelete guards fail if and only if the current state equals in-use. -/
theorem update_delete_blocked_when_in_use
    (repo : DeviceRepository) (id : UUID) (current : Device)
    (name brand : String) (state : DeviceState)
    (hget : repo.GetByID id = .ok current)
    (hInUse : current.state = DeviceStateInUse) :
    (∃ e, (UpdateDevice repo id name brand state).fst = .error e ∧
      isBusinessRuleError e = true)
    ∧ (UpdateDevice repo id name brand state).snd.all (fun c => !c.isWrite) = true
    ∧ (∃ e, (DeleteDevice repo id).fst = some e ∧ isBusinessRuleError e = true)
    ∧ (DeleteDevice repo id).snd.all (fun c => !c.isWrite) = true
    ∧ (∀ d : Device, (d.CanUpdate = none ↔ d.state ≠ DeviceStateInUse)
        ∧ (d.CanDelete = none ↔ d.state ≠ DeviceStateInUse)) := by
  have hu : current.CanUpdate =
      some (.businessRuleError "cannot update device in 'in-use' state") := by
    simp [Device.CanUpdate, hInUse]
  have hd : current.CanDelete =
      some (.businessRuleError "cannot delete device in 'in-use' state") := by
    simp [Device.CanDelete, hInUse]
  refine ⟨?_, ?_, ?_, ?_, ?_⟩
  · exact ⟨.businessRuleError "cannot update device in 'in-use' state",
      by simp [UpdateDevice, hget, Device.Update, hu], rfl⟩
  · simp [UpdateDevice, hget, Device.Update, hu, RepoCall.isWrite]
  · exact ⟨.businessRuleError "cannot delete device in 'in-use' state",
      by simp [DeleteDevice, hget, hd], rfl⟩
  · simp [DeleteDevice, hget, hd, RepoCall.isWrite]
  · intro d
    constructor <;> · simp only [Device.CanUpdate, Device.CanDelete]; split_ifs <;> simp_all

theorem update_delete_blocked_when_in_use_witness :
    (∃ e, (UpdateDevice (stubRepo devInUse) uuid0 "Galaxy S24" "Samsung"
        DeviceStateInactive).fst = .error e ∧ isBusinessRuleError e = true)
    ∧ (UpdateDevice (stubRepo devInUse) uuid0 "Galaxy S24" "Samsung"
        DeviceStateInactive).snd.all (fun c => !c.isWrite) = true
    ∧ (∃ e, (DeleteDevice (stubRepo devInUse) uuid0).fst = some e ∧
        isBusinessRuleError e = true)
    ∧ (DeleteDevice (stubRepo devInUse) uuid0).snd.all (fun c => !c.isWrite) = true
    ∧ (∀ d : Device, (d.CanUpdate = none ↔ d.state ≠ DeviceStateInUse)
        ∧ (d.CanDelete = none ↔ d.state ≠ DeviceStateInUse)) :=
  update_delete_blocked_when_in_use (stubRepo devInUse) uuid0 devInUse
    "Galaxy S24" "Samsung" DeviceStateInactive rfl rfl

/-- C3: for every (name, brand) pair within the length bounds, CreateDevice
succeeds when the store accepts the write, and the returned entity has state
active, a fresh non-nil id, the given name and brand verbatim, and the
non-zero creation timestamp taken (in UTC) at call time. -/
theorem create_produces_active_device
    (repo : DeviceRepository) (rnd : Fin 16 → Fin 256) (now : Nat)
    (name brand : String)
    (hrepo : ∀ d, repo.Create d = none)
    (hnow : now ≠ 0)
    (hname : trimSpace name ≠ "" ∧ 3 ≤ goLen (trimSpace name) ∧
      goLen (trimSpace name) ≤ 100)
    (hbrand : trimSpace brand ≠ "" ∧ 2 ≤ goLen (trimSpace brand) ∧
      goLen (trimSpace brand) ≤ 50) :
    ∃ d, (CreateDevice repo rnd now name brand).fst = .ok d
      ∧ d.state = DeviceStateActive
      ∧ d.id ≠ uuidNil
      ∧ d.name = name ∧ d.brand = brand
      ∧ d.createdAt = now ∧ d.createdAt ≠ 0 := by
  have hdev : (⟨uuidNew rnd, name, brand, now, DeviceStateActive⟩ : Device).Validate
      = none := by
    rw [(validate_ok_iff_and_first_violation_order _).1]
    exact ⟨uuidNew_ne_uuidNil rnd, hname.1, hname.2.1, hname.2.2,
      hbrand.1, hbrand.2.1, hbrand.2.2, hnow, Or.inl rfl⟩
  refine ⟨⟨uuidNew rnd, name, brand, now, DeviceStateActive⟩, ?_, rfl,
    uuidNew_ne_uuidNil rnd, rfl, rfl, rfl, hnow⟩
  simp [CreateDevice, NewDevice, hdev, hrepo]

theorem create_produces_active_device_witness :
    ∃ d, (CreateDevice (stubRepo devActive) rnd0 1 "iPhone 15" "Apple").fst = .ok d
      ∧ d.state = DeviceStateActive
      ∧ d.id ≠ uuidNil
      ∧ d.name = "iPhone 15" ∧ d.brand = "Apple"
      ∧ d.createdAt = 1 ∧ d.createdAt ≠ 0 :=
  create_produces_active_device (stubRepo devActive) rnd0 1 "iPhone 15" "Apple"
    (fun _ => rfl) (by decide) (by decide) (by decide)

/-- C4 counterexample: an identifier collision on create yields an error on
which IsAlreadyExistsError does NOT hold — `PostgresDeviceRepository.Create`
only wraps the driver's unique-violation error with fmt.Errorf, and nothing
in the repository ever returns ErrDeviceAlreadyExists. -/
theorem pg_create_collision_cex :
    ∃ e, (pgCreate [devActive] devInUse).snd = some e ∧ isAlreadyExistsError e = false :=
  ⟨.wrap "failed to create device"
    (.external "ERROR: duplicate key value violates unique constraint (SQLSTATE 23505)"),
   by decide, rfl⟩

/-- C4 amended: on an identifier collision the persistence create operation
fails and writes nothing, but the returned error is the wrapped driver error,
classified neither as AlreadyExists nor as any other of the four domain
categories — it stays in the unclassified category. -/
theorem pg_create_collision_unclassified
    (store : Store) (device : Device)
    (hcol : store.any (fun row => row.id == device.id) = true) :
    (pgCreate store device).fst = store ∧
    ∃ e, (pgCreate store device).snd = some e
      ∧ isAlreadyExistsError e = false ∧ isNotFoundError e = false
      ∧ isValidationError e = false ∧ isBusinessRuleError e = false := by
  refine ⟨by simp [pgCreate, hcol], ?_⟩
  exact ⟨.wrap "failed to create device"
      (.external "ERROR: duplicate key value violates unique constraint (SQLSTATE 23505)"),
    by simp [pgCreate, hcol], rfl, rfl, rfl, rfl⟩

theorem pg_create_collision_unclassified_witness :
    (pgCreate [devActive] devInUse).fst = [devActive] ∧
    ∃ e, (pgCreate [devActive] devInUse).snd = some e
      ∧ isAlreadyExistsError e = false ∧ isNotFoundError e = false
      ∧ isValidationError e = false ∧ isBusinessRuleError e = false :=
  pg_create_collision_unclassified [devActive] devInUse (by decide)

/-- C6: ListDevices never rejects out-of-range pagination inputs: it makes
exactly one store call, with limit 10 whenever the given limit is at most 0
and offset 0 whenever the given offset is negative, positive limits and
non-negative offsets passing through unchanged, and it returns ok whenever
the store does. -/
theorem list_devices_normalizes_pagination
    (repo : DeviceRepository) (limit offset : Int) :
    (ListDevices repo limit offset).snd =
      [RepoCall.list (if limit ≤ 0 then 10 else limit) (if offset < 0 then 0 else offset)]
    ∧ (∀ ds, repo.GoList (if limit ≤ 0 then 10 else limit)
        (if offset < 0 then 0 else offset) = .ok ds →
        (ListDevices repo limit offset).fst = .ok ds)
    ∧ (0 < limit → 0 ≤ offset →
        (ListDevices repo limit offset).snd = [RepoCall.list limit offset]) := by
  refine ⟨?_, ?_, ?_⟩
  · cases hgl : repo.GoList (if limit ≤ 0 then 10 else limit)
        (if offset < 0 then 0 else offset) <;>
      simp [ListDevices, hgl]
  · intro ds h; simp [ListDevices, h]
  · intro hl ho
    have h1 : (if limit ≤ 0 then (10 : Int) else limit) = limit := if_neg (by omega)
    have h2 : (if offset < 0 then (0 : Int) else offset) = offset := if_neg (by omega)
    cases hgl : repo.GoList limit offset <;>
      simp [ListDevices, h1, h2, hgl]

/-- C7: ListDevicesByState fails with a ValidationFailure naming field
"state" if and only if the state is not one of active, in-use, inactive; on
that failure no persistence call is made, and for a valid state it delegates
with the same limit/offset normalization as ListDevices. -/
theorem list_by_state_validates_then_delegates
    (repo : DeviceRepository) (rnd : Fin 16 → Fin 256) (state : DeviceState)
    (limit offset : Int) :
    ((∃ msg, (ListDevicesByState repo rnd state limit offset).fst =
        .error (.validationError "state" msg)) ↔
      ¬(state = DeviceStateActive ∨ state = DeviceStateInUse ∨
        state = DeviceStateInactive))
    ∧ (¬(state = DeviceStateActive ∨ state = DeviceStateInUse ∨
          state = DeviceStateInactive) →
        (ListDevicesByState repo rnd state limit offset).snd = [])
    ∧ ((state = DeviceStateActive ∨ state = DeviceStateInUse ∨
          state = DeviceStateInactive) →
        (ListDevicesByState repo rnd state limit offset).snd =
          [RepoCall.listByState state (if limit ≤ 0 then 10 else limit)
            (if offset < 0 then 0 else offset)]
        ∧ ∀ ds, repo.ListByState state (if limit ≤ 0 then 10 else limit)
            (if offset < 0 then 0 else offset) = .ok ds →
            (ListDevicesByState repo rnd state limit offset).fst = .ok ds) := by
  by_cases h : state = DeviceStateActive ∨ state = DeviceStateInUse ∨
      state = DeviceStateInactive
  · have hv : (⟨uuidNew rnd, "temp", "temp", 0, state⟩ : Device).ValidateState = none := by
      simp [Device.ValidateState, h]
    refine ⟨⟨?_, fun hc => absurd h hc⟩, fun hc => absurd h hc, fun _ => ⟨?_, ?_⟩⟩
    · rintro ⟨msg, hmsg⟩
      cases hls : repo.ListByState state (if limit ≤ 0 then 10 else limit)
          (if offset < 0 then 0 else offset) <;>
        simp [ListDevicesByState, hv, hls] at hmsg
    · cases hls : repo.ListByState state (if limit ≤ 0 then 10 else limit)
          (if offset < 0 then 0 else offset) <;>
        simp [ListDevicesByState, hv, hls]
    · intro ds hds
      simp [ListDevicesByState, hv, hds]
  · have hv : (⟨uuidNew rnd, "temp", "temp", 0, state⟩ : Device).ValidateState =
        some (.validationError "state"
          ("invalid state: " ++ state ++ " (must be: active, in-use, or inactive)")) := by
      simp [Device.ValidateState, h]
    refine ⟨⟨fun _ => h, fun _ => ?_⟩, fun _ => ?_, fun hc => absurd hc h⟩
    · exact ⟨"invalid state: " ++ state ++ " (must be: active, in-use, or inactive)",
        by simp [ListDevicesByState, hv]⟩
    · simp [ListDevicesByState, hv]

/-- C8: the persistence update operation replaces only the mutable fields
name, brand and state of the rows matching the identifier — every row of the
written store keeps the id and created_at of a stored row, and non-matching
rows are untouched — and the operation fails with NotFound exactly when no
row with the given identifier exists. -/
theorem pg_update_frame (store : Store) (device : Device) :
    (∀ row ∈ (pgUpdate store device).fst, ∃ orig, orig ∈ store ∧
      row.id = orig.id ∧ row.createdAt = orig.createdAt ∧
      (orig.id = device.id → row.name = device.name ∧ row.brand = device.brand ∧
        row.state = device.state) ∧
      (orig.id ≠ device.id → row = orig))
    ∧ ((∀ row ∈ store, row.id ≠ device.id) →
        (pgUpdate store device).snd = some .deviceNotFound ∧
        (pgUpdate store device).fst = store)
    ∧ ((∃ row ∈ store, row.id = device.id) → (pgUpdate store device).snd = none) := by
  have hfst : (pgUpdate store device).fst = store.map (fun row =>
      if row.id == device.id then
        { row with name := device.name, brand := device.brand, state := device.state }
      else row) := by
    simp only [pgUpdate]
    split_ifs <;> rfl
  refine ⟨?_, ?_, ?_⟩
  · intro row hrow
    rw [hfst] at hrow
    obtain ⟨orig, horig, heq⟩ := List.mem_map.1 hrow
    by_cases hid : orig.id = device.id
    · refine ⟨orig, horig, ?_⟩
      rw [if_pos (by simpa using hid)] at heq
      subst heq
      exact ⟨rfl, rfl, fun _ => ⟨rfl, rfl, rfl⟩, fun hc => absurd hid hc⟩
    · refine ⟨orig, horig, ?_⟩
      rw [if_neg (by simpa using hid)] at heq
      subst heq
      exact ⟨rfl, rfl, fun hc => absurd hc hid, fun _ => rfl⟩
  · intro hnone
    have hcount : store.countP (fun row => row.id == device.id) = 0 := by
      rw [List.countP_eq_zero]
      intro row hrow
      simpa using hnone row hrow
    have hmap : ∀ l : Store, (∀ row ∈ l, row.id ≠ device.id) →
        l.map (fun row =>
          if row.id == device.id then
            { row with name := device.name, brand := device.brand, state := device.state }
          else row) = l := by
      intro l hl
      induction l with
      | nil => rfl
      | cons hd tl ih =>
        simp only [List.map_cons]
        rw [if_neg (by simpa using hl hd (List.mem_cons_self hd tl)),
          ih (fun row hrow => hl row (List.mem_cons_of_mem hd hrow))]
    refine ⟨?_, hfst.trans (hmap store hnone)⟩
    simp only [pgUpdate]
    rw [hcount]
    simp
  · rintro ⟨row, hrow, hid⟩
    have hcount : store.countP (fun row => row.id == device.id) ≠ 0 := by
      have : 0 < store.countP (fun row => row.id == device.id) :=
        List.countP_pos_iff.2 ⟨row, hrow, by simpa using hid⟩
      omega
    simp only [pgUpdate]
    rw [if_neg hcount]

end DevicesApi
